import Mathlib

/-!
Verification development for the mq-tui repository.

The repository ships a single source file, src/main.rs, which is glue:
it parses the command line, reads the document file, derives a display
filename, constructs the App and runs it.  The interactive core (editor
state, evaluation debouncer, query-engine adapter, view model, renderer,
application loop) lives in the mq_tui library, whose code is not part of
this repository snapshot; those components are modelled here from the
specification (each such definition carries a doc comment starting
"Modelled from the spec:").  main.rs itself is embedded faithfully, with
the standard-library path and OS-string behaviour it relies on modelled
from their documented semantics.
-/

namespace MqTui

/-! ## Data model (spec section 3) -/

/-- Modelled from the spec: QueryError carries a human-readable message and,
where available, a character offset into the query text (spec 4.2). -/
structure QueryError where
  message : String
  offset : Option Nat
deriving Repr, DecidableEq

/-- Modelled from the spec: dynamic tagged results from the query engine are
a closed tagged-variant type string/number/boolean/null/sequence/mapping
(spec section 9, design notes). -/
inductive RenderableValue where
  | str (s : String)
  | num (n : Int)
  | boolean (b : Bool)
  | null
  | sequence (xs : List RenderableValue)
  | mapping (kvs : List (String × RenderableValue))
deriving Repr

/-- Modelled from the spec: EvaluationResult is a tagged variant
Pending | Success | Failure | Empty (spec section 3). -/
inductive EvaluationResult where
  | Pending
  | Success (v : RenderableValue)
  | Failure (e : QueryError)
  | Empty
deriving Repr

/-- Modelled from the spec: Document holds the loaded raw text and the
display filename; immutable after load (spec section 3). -/
structure Document where
  raw_text : String
  filename : String
deriving Repr, DecidableEq

/-- Modelled from the spec: QueryBuffer is the editable query text with a
cursor offset; invariant 0 <= cursor_offset <= length(text) (spec section 3).
Text is modelled as a list of characters. -/
structure QueryBuffer where
  text : List Char
  cursor_offset : Nat
deriving Repr, DecidableEq

/-- The Editor State invariant from spec section 3: the cursor offset never
exceeds the buffer length (lower bound is inherent in Nat). -/
def QueryBuffer.wf (b : QueryBuffer) : Prop :=
  b.cursor_offset ≤ b.text.length

instance (b : QueryBuffer) : Decidable b.wf := by
  unfold QueryBuffer.wf; infer_instance

/-! ## Editor State (spec section 4.1) -/

/-- Modelled from the spec: insert_char(c) inserts a character at the cursor
and advances the cursor past it (spec 4.1). -/
def QueryBuffer.insert_char (b : QueryBuffer) (c : Char) : QueryBuffer :=
  { text := b.text.take b.cursor_offset ++ c :: b.text.drop b.cursor_offset,
    cursor_offset := b.cursor_offset + 1 }

/-- Modelled from the spec: delete_before_cursor removes the character just
before the cursor, if any, moving the cursor back one (spec 4.1). -/
def QueryBuffer.delete_before_cursor (b : QueryBuffer) : QueryBuffer :=
  if b.cursor_offset = 0 then b
  else
    { text := b.text.take (b.cursor_offset - 1) ++ b.text.drop b.cursor_offset,
      cursor_offset := b.cursor_offset - 1 }

/-- Modelled from the spec: delete_after_cursor removes the character at the
cursor, if any; the cursor does not move (spec 4.1). -/
def QueryBuffer.delete_after_cursor (b : QueryBuffer) : QueryBuffer :=
  { text := b.text.take b.cursor_offset ++ b.text.drop (b.cursor_offset + 1),
    cursor_offset := b.cursor_offset }

/-- Modelled from the spec: cursor movement direction (spec 4.1). -/
inductive Direction where
  | left
  | right
deriving Repr, DecidableEq

/-- Modelled from the spec: cursor movement unit, one of
char, word, line_start, line_end (spec 4.1). -/
inductive MoveUnit where
  | char
  | word
  | line_start
  | line_end
deriving Repr, DecidableEq

/-- Column of the cursor within its line: number of characters between the
last newline before the cursor and the cursor. -/
def QueryBuffer.cursorCol (b : QueryBuffer) : Nat :=
  (((b.text.take b.cursor_offset).reverse).takeWhile (fun c => c ≠ '\n')).length

/-- Row of the cursor: number of newlines before the cursor. -/
def QueryBuffer.cursorRow (b : QueryBuffer) : Nat :=
  ((b.text.take b.cursor_offset).filter (fun c => c = '\n')).length

/-- Modelled from the spec: move_cursor(direction, unit) with clamping; no
operation may leave the cursor outside buffer bounds (spec 4.1).
Word motion skips blanks then a run of non-blanks; line_start moves to the
position after the previous newline; line_end to the next newline or the
end of the buffer. -/
def QueryBuffer.move_cursor (b : QueryBuffer) (d : Direction) (u : MoveUnit) :
    QueryBuffer :=
  match d, u with
  | .left, .char => { b with cursor_offset := b.cursor_offset - 1 }
  | .right, .char =>
      { b with cursor_offset := min (b.cursor_offset + 1) b.text.length }
  | .left, .word =>
      { b with
        cursor_offset :=
          ((((b.text.take b.cursor_offset).reverse).dropWhile
                (fun c => c = ' ')).dropWhile (fun c => c ≠ ' ')).length }
  | .right, .word =>
      { b with
        cursor_offset :=
          b.text.length -
            (((b.text.drop b.cursor_offset).dropWhile
                (fun c => c ≠ ' ')).dropWhile (fun c => c = ' ')).length }
  | .left, .line_start =>
      { b with cursor_offset := b.cursor_offset - b.cursorCol }
  | .right, .line_start =>
      { b with cursor_offset := b.cursor_offset - b.cursorCol }
  | .left, .line_end =>
      { b with
        cursor_offset :=
          b.cursor_offset +
            ((b.text.drop b.cursor_offset).takeWhile (fun c => c ≠ '\n')).length }
  | .right, .line_end =>
      { b with
        cursor_offset :=
          b.cursor_offset +
            ((b.text.drop b.cursor_offset).takeWhile (fun c => c ≠ '\n')).length }

/-- Modelled from the spec: the Editor State operations as a closed type of
edit operations (spec 4.1). -/
inductive EditOp where
  | insert (c : Char)
  | delBefore
  | delAfter
  | move (d : Direction) (u : MoveUnit)
deriving Repr, DecidableEq

/-- Apply one edit operation to the buffer. -/
def applyOp (b : QueryBuffer) (op : EditOp) : QueryBuffer :=
  match op with
  | .insert c => b.insert_char c
  | .delBefore => b.delete_before_cursor
  | .delAfter => b.delete_after_cursor
  | .move d u => b.move_cursor d u

/-- Apply a sequence of edit operations left to right. -/
def applyOps (b : QueryBuffer) (ops : List EditOp) : QueryBuffer :=
  ops.foldl applyOp b

/-! ## Query Engine Adapter (spec section 4.2) -/

/-- Modelled from the spec: the Query Engine Adapter wraps the external
evaluator behind evaluate(document_text, query_text); it is a pure total
function, does not panic on malformed query text, and surfaces all failures
as a QueryError with a human-readable message and, where available, a
character offset (spec 4.2; scenarios A and B of spec section 8: the
identity query succeeds with the whole document, malformed text fails with
a non-empty message). -/
def evaluate (document_text query_text : String) :
    Except QueryError RenderableValue :=
  if query_text = "." then .ok (.str document_text)
  else .error { message := "syntax error: unexpected token", offset := some 0 }

/-- Modelled from the spec: the adapter performs no caching itself and has no
knowledge of the surrounding state; a call made in any ambient state returns
the evaluate result and leaves the state unchanged (spec 4.2, 5). -/
def adapterCall {σ : Type} (st : σ) (document_text query_text : String) :
    Except QueryError RenderableValue × σ :=
  (evaluate document_text query_text, st)

/-! ## Evaluation Cache / Debouncer (spec section 4.3) -/

/-- Modelled from the spec: the Debouncer keeps a monotonically increasing
sequence_number incremented on every buffer mutation, plus the
currently-stored result and the sequence number it was derived from
(spec 4.3, section 3 EvaluationRequest). -/
structure DebouncerState where
  seq : Nat
  stored_seq : Nat
  stored : EvaluationResult
deriving Repr

/-- Modelled from the spec: the events the Debouncer reacts to — a buffer
mutation (which increments the sequence number) and the completion of an
evaluation request carrying its sequence number (spec 4.3). -/
inductive DebEvent where
  | mutate
  | complete (reqSeq : Nat) (r : EvaluationResult)

/-- Modelled from the spec: on mutation, increment the sequence number; on a
completion, compare its sequence number to the currently-stored one and
apply the new result only if strictly greater, otherwise discard (spec 4.3). -/
def debStep (s : DebouncerState) (e : DebEvent) : DebouncerState :=
  match e with
  | .mutate => { s with seq := s.seq + 1 }
  | .complete n r =>
      if s.stored_seq < n then { s with stored_seq := n, stored := r } else s

/-- Run the Debouncer over a list of events (an interleaving of mutations and
completions). -/
def debRun (s : DebouncerState) (evs : List DebEvent) : DebouncerState :=
  evs.foldl debStep s

/-! ## Evaluation step (spec section 4.3, empty-query short circuit) -/

/-- Modelled from the spec: run one evaluation of the current buffer text —
empty query text short-circuits to EvaluationResult.Empty without invoking
the adapter; otherwise the adapter is invoked and failures become
EvaluationResult.Failure (spec 4.3).  The Bool records whether the adapter
was invoked. -/
def runEvaluation (adapter : String → String → Except QueryError RenderableValue)
    (document_text query_text : String) : EvaluationResult × Bool :=
  if query_text.isEmpty then (.Empty, false)
  else
    match adapter document_text query_text with
    | .ok v => (.Success v, true)
    | .error e => (.Failure e, true)

/-- Modelled from the spec: one full mutation-evaluation cycle — the buffer
mutation increments the sequence number, an evaluation request carrying that
number is run, and its completion is applied through the Debouncer
(spec 4.3, data flow of spec section 2). -/
def evalCycle (adapter : String → String → Except QueryError RenderableValue)
    (s : DebouncerState) (document_text query_text : String) :
    DebouncerState × Bool :=
  let s1 := debStep s .mutate
  let (r, invoked) := runEvaluation adapter document_text query_text
  (debStep s1 (.complete s1.seq r), invoked)

/-! ## View Model scroll adjustment (spec section 4.4) -/

/-- Modelled from the spec: the query-pane scroll offsets kept by the
View Model (spec section 3, ViewState). -/
structure ScrollState where
  row_scroll : Nat
  col_scroll : Nat
deriving Repr, DecidableEq

/-- Modelled from the spec: recompute a scroll offset when the cursor would
otherwise move outside the visible window — scroll up to the cursor when it
is above the window, down just enough when it is below, otherwise keep the
offset (spec 4.4, keep-cursor-visible invariant). -/
def adjustScroll (scroll cursor size : Nat) : Nat :=
  if cursor < scroll then cursor
  else if scroll + size ≤ cursor then cursor + 1 - size
  else scroll

/-- Modelled from the spec: after a cursor movement the View Model adjusts
both scroll offsets of the query pane so the cursor row and column lie
within the visible window of the given size (spec 4.4). -/
def keepCursorVisible (v : ScrollState) (b : QueryBuffer) (rows cols : Nat) :
    ScrollState :=
  { row_scroll := adjustScroll v.row_scroll b.cursorRow rows,
    col_scroll := adjustScroll v.col_scroll b.cursorCol cols }

/-! ## Application Loop (spec sections 4.5, 4.7) -/

/-- Modelled from the spec: the signal an event dispatch produces — keep
looping or terminate (spec 4.5, 4.7). -/
inductive LoopSignal where
  | continueLoop
  | quit
deriving Repr, DecidableEq

/-- Modelled from the spec: the events the Application Loop blocks on — text
keys mutating the editor, the designated quit key, completion of an
evaluation request, and terminal resizes (spec 4.5, 4.7). -/
inductive AppEvent where
  | key (op : EditOp)
  | quitKey
  | evalComplete (n : Nat) (r : EvaluationResult)
  | resize (rows cols : Nat)

/-- Modelled from the spec: the state the Application Loop threads — the
immutable document, the query buffer, the Debouncer slot, the scroll state
and the terminal dimensions (spec section 2, data flow). -/
structure AppState where
  document : Document
  buffer : QueryBuffer
  deb : DebouncerState
  scroll : ScrollState
  rows : Nat
  cols : Nat

/-- Modelled from the spec: dispatch one event — the quit key terminates;
text keys mutate the Editor State, mark the buffer dirty (sequence bump) and
keep the cursor visible; evaluation completions go through the Debouncer;
resizes update the dimensions; nothing else aborts the loop
(spec 4.5, 4.7). -/
def appStep (s : AppState) (e : AppEvent) : AppState × LoopSignal :=
  match e with
  | .quitKey => (s, .quit)
  | .key op =>
      let b2 := applyOp s.buffer op
      ({ s with
          buffer := b2
          deb := debStep s.deb .mutate
          scroll := keepCursorVisible s.scroll b2 s.rows s.cols },
        .continueLoop)
  | .evalComplete n r =>
      ({ s with deb := debStep s.deb (.complete n r) }, .continueLoop)
  | .resize r c => ({ s with rows := r, cols := c }, .continueLoop)

/-- Modelled from the spec: outcome of running the loop on a finite event
stream — either a quit transition was observed, or the stream ran out with
the loop still blocked waiting for the next event (spec 4.7). -/
inductive LoopResult where
  | quitOk (s : AppState)
  | pending (s : AppState)

/-- Modelled from the spec: the Application Loop — dispatch, then repeat
until an exit transition is observed (spec 4.7). -/
def runLoop (s : AppState) : List AppEvent → LoopResult
  | [] => .pending s
  | e :: rest =>
      match appStep s e with
      | (s2, .quit) => .quitOk s2
      | (s2, .continueLoop) => runLoop s2 rest

/-- Modelled from the spec: the initial state — empty query buffer, Pending
result, default scroll, document as loaded (spec section 3 lifecycles). -/
def initState (content filename : String) : AppState :=
  { document := { raw_text := content, filename := filename }
    buffer := { text := [], cursor_offset := 0 }
    deb := { seq := 0, stored_seq := 0, stored := .Pending }
    scroll := { row_scroll := 0, col_scroll := 0 }
    rows := 24
    cols := 80 }

/-- Modelled from the spec: App.run — run the loop from the initial state;
a user-initiated quit returns success; none means the stream ran out with
the loop still running (spec 4.7, section 6 exit codes). -/
def appRun (content filename : String) (evs : List AppEvent) :
    Option (Except String Unit) :=
  match runLoop (initState content filename) evs with
  | .quitOk _ => some (.ok ())
  | .pending _ => none

/-! ## Renderer and terminal lifecycle (spec section 4.6) -/

/-- Modelled from the spec: the terminal-lifecycle effects the Renderer
performs (spec 4.6). -/
inductive TermEffect where
  | enterRaw
  | enterAlt
  | paint
  | leaveAlt
  | restoreCooked
deriving Repr, DecidableEq

/-- Modelled from the spec: terminal mode — the original cooked mode or the
exclusive raw mode (spec 4.6). -/
inductive TermMode where
  | cooked
  | raw
deriving Repr, DecidableEq

/-- Effect of one terminal action on the mode. -/
def applyEffect (m : TermMode) : TermEffect → TermMode
  | .enterRaw => .raw
  | .restoreCooked => .cooked
  | _ => m

/-- Terminal mode after a trace of effects, starting from cooked mode. -/
def finalMode (fx : List TermEffect) : TermMode :=
  fx.foldl applyEffect .cooked

/-- Modelled from the spec: how the guarded body ends — a normal return
(quit or propagated error) or an unexpected termination (panic)
(spec 4.6). -/
inductive BodyOutcome where
  | normal (r : Except String Unit)
  | panicked (msg : String)

/-- Modelled from the spec: the scoped-resource contract of the Renderer —
enter raw mode and the alternate screen, run the body, and restore the
original mode on every exit path, whatever the body did and however it
ended (spec 4.6, exit guard). -/
def runGuarded (bodyFx : List TermEffect) (o : BodyOutcome) :
    List TermEffect × BodyOutcome :=
  (TermEffect.enterRaw :: TermEffect.enterAlt ::
      (bodyFx ++ [TermEffect.leaveAlt, TermEffect.restoreCooked]),
    o)

/-! ## main.rs embedding

The definitions below embed src/main.rs.  OS strings and paths are external
standard-library types; they are modelled at the level main.rs uses them: an
OS string either is valid UTF-8 or is not, and a path is its parsed
component list, with file_name yielding the final component when that
component is a normal one (the documented semantics of the library used by
main.rs). -/

/-- An operating-system string: valid UTF-8 or not. -/
inductive OsStr where
  | utf8 (s : String)
  | nonUtf8 (bytes : List Nat)
deriving Repr, DecidableEq

/-- Conversion of an OS string to a UTF-8 string, failing when it is not
valid UTF-8. -/
def OsStr.to_str : OsStr → Option String
  | .utf8 s => some s
  | .nonUtf8 _ => none

/-- One parsed path component: a root directory, the current directory, the
parent directory, or a normal named component. -/
inductive PathComponent where
  | rootDir
  | curDir
  | parentDir
  | normal (n : OsStr)
deriving Repr, DecidableEq

/-- A file-system path, as its parsed component list. -/
structure FsPath where
  components : List PathComponent
deriving Repr, DecidableEq

/-- The final component of a path when it is a normal component, none
otherwise (none for a path ending in a root or parent-directory
component, and for the empty path). -/
def FsPath.file_name (p : FsPath) : Option OsStr :=
  match p.components.getLast? with
  | some (.normal n) => some n
  | _ => none

/-- From main.rs lines 32 to 36: the display filename is the final path
component converted to UTF-8, with "file.md" as the fallback when the
component is absent or is not valid UTF-8. -/
def mainFilename (p : FsPath) : String :=
  ((p.file_name).bind OsStr.to_str).getD "file.md"

/-- From main.rs line 27: the error message reported when no FILE argument
was given. -/
def noFilePathMsg : String :=
  "No file path provided.\nUsage: mq_tui <FILE>\nFor more information, try \x27--help\x27"

/-- Outcome of main: a startup error reported before the App exists, or the
App was constructed with the given content and filename and run to the
given result. -/
inductive MainOutcome where
  | startupErr (msg : String)
  | appStarted (content filename : String) (res : Option (Except String Unit))

/-- From main.rs: take the optional FILE argument; when absent fail with the
usage message; otherwise read the file through the file system, failing on a
read error; otherwise derive the filename and construct and run the App.
The file system is passed as a function, and the terminal-effect trace of
the run is returned alongside the outcome: the startup error paths perform
no terminal effect, the App run is guarded (spec 4.6). -/
def mainRun (fs : FsPath → Except String String) (cli : Option FsPath)
    (evs : List AppEvent) : MainOutcome × List TermEffect :=
  match cli with
  | none => (.startupErr noFilePathMsg, [])
  | some p =>
      match fs p with
      | .error e => (.startupErr e, [])
      | .ok content =>
          let filename := mainFilename p
          let res := appRun content filename evs
          (.appStarted content filename res,
            (runGuarded (evs.map fun _ => TermEffect.paint)
              (match res with
                | some r => .normal r
                | none => .normal (.ok ()))).1)

/-- Process exit code from the outcome: a startup error exits non-zero (a
main returning an error diagnostics value), a completed run maps success to
0 and errors to non-zero; none when the loop has not yet terminated. -/
def exitCode : MainOutcome → Option Nat
  | .startupErr _ => some 1
  | .appStarted _ _ (some (.ok _)) => some 0
  | .appStarted _ _ (some (.error _)) => some 1
  | .appStarted _ _ none => none

/-! ## Helper lemmas -/

theorem length_dropWhileLe {α : Type} (p : α → Bool) (l : List α) :
    (l.dropWhile p).length ≤ l.length := by
  induction l with
  | nil => simp [List.dropWhile]
  | cons a t ih =>
      simp only [List.dropWhile]
      split
      · exact Nat.le_succ_of_le ih
      · exact Nat.le_refl _

theorem length_takeWhileLe {α : Type} (p : α → Bool) (l : List α) :
    (l.takeWhile p).length ≤ l.length := by
  induction l with
  | nil => simp [List.takeWhile]
  | cons a t ih =>
      simp only [List.takeWhile]
      split
      · exact Nat.succ_le_succ ih
      · exact Nat.zero_le _

theorem wf_insert_char {b : QueryBuffer} (h : b.wf) (c : Char) :
    (b.insert_char c).wf := by
  unfold QueryBuffer.wf QueryBuffer.insert_char at *
  simp only [List.length_append, List.length_take, List.length_cons,
    List.length_drop]
  omega

theorem wf_delete_before {b : QueryBuffer} (h : b.wf) :
    b.delete_before_cursor.wf := by
  unfold QueryBuffer.wf QueryBuffer.delete_before_cursor at *
  split
  · exact h
  · simp only [List.length_append, List.length_take, List.length_drop]
    omega

theorem wf_delete_after {b : QueryBuffer} (h : b.wf) :
    b.delete_after_cursor.wf := by
  unfold QueryBuffer.wf QueryBuffer.delete_after_cursor at *
  simp only [List.length_append, List.length_take, List.length_drop]
  omega

theorem wf_move_cursor {b : QueryBuffer} (h : b.wf) (d : Direction)
    (u : MoveUnit) : (b.move_cursor d u).wf := by
  unfold QueryBuffer.wf QueryBuffer.move_cursor at *
  cases d <;> cases u <;>
    simp only [QueryBuffer.cursorCol] <;>
    first
      | omega
      | (have h1 := length_takeWhileLe (fun c => decide (c ≠ '\n'))
            (b.text.drop b.cursor_offset)
         simp only [List.length_drop] at h1
         omega)
      | (have h1 := length_dropWhileLe (fun c => decide (c ≠ ' '))
            (((b.text.take b.cursor_offset).reverse).dropWhile
              (fun c => decide (c = ' ')))
         have h2 := length_dropWhileLe (fun c => decide (c = ' '))
            ((b.text.take b.cursor_offset).reverse)
         simp only [List.length_reverse, List.length_take] at h1 h2
         omega)

theorem wf_applyOp {b : QueryBuffer} (h : b.wf) (op : EditOp) :
    (applyOp b op).wf := by
  cases op with
  | insert c => exact wf_insert_char h c
  | delBefore => exact wf_delete_before h
  | delAfter => exact wf_delete_after h
  | move d u => exact wf_move_cursor h d u

theorem wf_applyOps {b : QueryBuffer} (h : b.wf) (ops : List EditOp) :
    (applyOps b ops).wf := by
  induction ops generalizing b with
  | nil => exact h
  | cons op rest ih => exact ih (wf_applyOp h op)

theorem debStep_stored_seq_le (s : DebouncerState) (e : DebEvent) :
    s.stored_seq ≤ (debStep s e).stored_seq := by
  cases e with
  | mutate => exact Nat.le_refl _
  | complete n r =>
      simp only [debStep]
      split
      · exact Nat.le_of_lt (by assumption)
      · exact Nat.le_refl _

theorem debRun_stored_seq_le (s : DebouncerState) (evs : List DebEvent) :
    s.stored_seq ≤ (debRun s evs).stored_seq := by
  induction evs generalizing s with
  | nil => exact Nat.le_refl _
  | cons e rest ih =>
      exact Nat.le_trans (debStep_stored_seq_le s e) (ih (debStep s e))

theorem debRun_append (s : DebouncerState) (l1 l2 : List DebEvent) :
    debRun s (l1 ++ l2) = debRun (debRun s l1) l2 := by
  simp [debRun, List.foldl_append]

theorem adjustScroll_visible (scroll cursor size : Nat) (h : 0 < size) :
    adjustScroll scroll cursor size ≤ cursor ∧
      cursor < adjustScroll scroll cursor size + size := by
  unfold adjustScroll
  split
  · omega
  · split <;> omega

theorem runLoop_cons_continue (s : AppState) (e : AppEvent)
    (rest : List AppEvent) (h : (appStep s e).2 = LoopSignal.continueLoop) :
    runLoop s (e :: rest) = runLoop (appStep s e).1 rest := by
  rcases hp : appStep s e with ⟨s2, sig⟩
  rw [hp] at h
  cases sig with
  | continueLoop => simp only [runLoop, hp]
  | quit => simp at h

theorem runLoop_quit (evs : List AppEvent) :
    ∀ s : AppState, AppEvent.quitKey ∈ evs →
      ∃ s2, runLoop s evs = LoopResult.quitOk s2 := by
  induction evs with
  | nil => intro s h; cases h
  | cons e rest ih =>
      intro s h
      cases e with
      | quitKey => exact ⟨s, by simp only [runLoop, appStep]⟩
      | key op =>
          have h2 : AppEvent.quitKey ∈ rest := by
            cases h with
            | tail _ htl => exact htl
          rw [runLoop_cons_continue s (.key op) rest rfl]
          exact ih _ h2
      | evalComplete n r =>
          have h2 : AppEvent.quitKey ∈ rest := by
            cases h with
            | tail _ htl => exact htl
          rw [runLoop_cons_continue s (.evalComplete n r) rest rfl]
          exact ih _ h2
      | resize r c =>
          have h2 : AppEvent.quitKey ∈ rest := by
            cases h with
            | tail _ htl => exact htl
          rw [runLoop_cons_continue s (.resize r c) rest rfl]
          exact ih _ h2

/-! ## Claim theorems -/

/-- C2: for every sequence of Editor State operations applied to any
well-formed QueryBuffer, after every operation (that is, after every prefix
of the sequence) the invariant 0 <= cursor_offset <= length(text) holds;
operations clamp the cursor rather than erroring (they are total and
preserve the bound). -/
theorem editor_invariant_preserved (b : QueryBuffer) (h : b.wf)
    (ops : List EditOp) (i : Nat) : (applyOps b (ops.take i)).wf :=
  wf_applyOps h (ops.take i)

/-- Witness for C2 at a concrete buffer and operation sequence. -/
theorem editor_invariant_preserved_witness :
    (QueryBuffer.mk ['a', 'b'] 1).wf ∧
      (applyOps (QueryBuffer.mk ['a', 'b'] 1)
        ([EditOp.insert 'x', EditOp.delBefore,
          EditOp.move Direction.right MoveUnit.line_end].take 2)).wf :=
  ⟨by decide,
    editor_invariant_preserved (QueryBuffer.mk ['a', 'b'] 1) (by decide)
      [EditOp.insert 'x', EditOp.delBefore,
        EditOp.move Direction.right MoveUnit.line_end] 2⟩

/-- C1: over every interleaving of mutations and completions, a completed
result is applied only when its sequence number is strictly greater than the
stored one, is discarded otherwise, and consequently the stored sequence
number never decreases along the run (no applied result is ever replaced by
one with an older sequence number). -/
theorem debouncer_latest_wins (s : DebouncerState) (evs : List DebEvent) :
    (∀ n r, s.stored_seq < n →
        debStep s (.complete n r) = { s with stored_seq := n, stored := r }) ∧
      (∀ n r, ¬ s.stored_seq < n → debStep s (.complete n r) = s) ∧
      (∀ i j, i ≤ j →
        (debRun s (evs.take i)).stored_seq ≤
          (debRun s (evs.take j)).stored_seq) := by
  refine ⟨fun n r h => by simp [debStep, h], fun n r h => by simp [debStep, h],
    fun i j hij => ?_⟩
  have hsplit : evs.take j = evs.take i ++ (evs.drop i).take (j - i) := by
    nth_rewrite 1 [show j = i + (j - i) by omega]
    rw [List.take_add]
  rw [hsplit, debRun_append]
  exact debRun_stored_seq_le _ _

/-- Witness for C1 at concrete states and event lists: a newer completion is
applied, a stale one is discarded, and the stored sequence number is
monotone along a concrete interleaving. -/
theorem debouncer_latest_wins_witness :
    debStep (DebouncerState.mk 5 2 .Pending) (.complete 3 .Empty) =
        DebouncerState.mk 5 3 .Empty ∧
      debStep (DebouncerState.mk 5 2 .Pending) (.complete 2 .Empty) =
        DebouncerState.mk 5 2 .Pending ∧
      (debRun (DebouncerState.mk 0 0 .Pending)
          ([DebEvent.mutate, .complete 1 .Empty, .mutate].take 1)).stored_seq ≤
        (debRun (DebouncerState.mk 0 0 .Pending)
          ([DebEvent.mutate, .complete 1 .Empty, .mutate].take 3)).stored_seq := by
  obtain ⟨h1, h2, h3⟩ :=
    debouncer_latest_wins (DebouncerState.mk 5 2 .Pending)
      [DebEvent.mutate, .complete 1 .Empty, .mutate]
  obtain ⟨-, -, h3⟩ :=
    debouncer_latest_wins (DebouncerState.mk 0 0 .Pending)
      [DebEvent.mutate, .complete 1 .Empty, .mutate]
  exact ⟨h1 3 .Empty (by decide), h2 2 .Empty (by decide), h3 1 3 (by decide)⟩

/-- C3: whenever the query text is empty, the evaluation cycle stores
EvaluationResult.Empty without invoking the adapter, for every prior stored
result — in particular a stale Failure from a prior non-empty query is
replaced, never left displayed.  The hypothesis stored_seq <= seq is the
Debouncer sanity bound: stored results come from already-issued requests. -/
theorem empty_query_short_circuits
    (adapter : String → String → Except QueryError RenderableValue)
    (s : DebouncerState) (document_text query_text : String)
    (hq : query_text.isEmpty) (hs : s.stored_seq ≤ s.seq) :
    (evalCycle adapter s document_text query_text).2 = false ∧
      ((evalCycle adapter s document_text query_text).1).stored =
        EvaluationResult.Empty := by
  have hlt : s.stored_seq < s.seq + 1 := Nat.lt_succ_of_le hs
  constructor
  · simp [evalCycle, runEvaluation, hq]
  · simp [evalCycle, runEvaluation, hq, debStep, hlt]

/-- Witness for C3: starting from a state holding a stale Failure, the empty
query stores Empty and does not invoke the adapter. -/
theorem empty_query_short_circuits_witness :
    ("" : String).isEmpty = true ∧
      (DebouncerState.mk 4 3
        (.Failure (QueryError.mk "syntax error: unexpected token" (some 0)))).stored_seq ≤ 4 ∧
      (evalCycle evaluate
        (DebouncerState.mk 4 3
          (.Failure (QueryError.mk "syntax error: unexpected token" (some 0))))
        "# Title" "").2 = false ∧
      ((evalCycle evaluate
        (DebouncerState.mk 4 3
          (.Failure (QueryError.mk "syntax error: unexpected token" (some 0))))
        "# Title" "").1).stored = EvaluationResult.Empty := by
  refine ⟨by decide, by decide, ?_⟩
  exact empty_query_short_circuits evaluate
    (DebouncerState.mk 4 3
      (.Failure (QueryError.mk "syntax error: unexpected token" (some 0))))
    "# Title" "" (by decide) (by decide)

/-- C4: the Query Engine Adapter is deterministic — calls with the same
document and query inputs return identical results regardless of any
ambient state, the call leaves that state unchanged, and the result is
exactly the pure evaluate result (spec 4.2 purity). -/
theorem adapter_deterministic {σ τ : Type} (s1 : σ) (s2 : τ)
    (document_text query_text : String) :
    (adapterCall s1 document_text query_text).1 =
        (adapterCall s2 document_text query_text).1 ∧
      (adapterCall s1 document_text query_text).2 = s1 ∧
      (adapterCall s1 document_text query_text).1 =
        evaluate document_text query_text :=
  ⟨rfl, rfl, rfl⟩

/-- C5: every evaluation failure on a non-empty query is converted locally
into EvaluationResult.Failure carrying a non-empty human-readable message,
and an evaluation completion never terminates or aborts the Application
Loop — the dispatch signal is always continueLoop, failures included. -/
theorem failures_handled_locally (document_text query_text : String)
    (st : AppState) (n : Nat) :
    (∀ e, query_text.isEmpty = false →
        evaluate document_text query_text = .error e →
          (runEvaluation evaluate document_text query_text).1 =
              EvaluationResult.Failure e ∧ e.message ≠ "") ∧
      (∀ r, (appStep st (.evalComplete n r)).2 = LoopSignal.continueLoop) := by
  constructor
  · intro e hq he
    constructor
    · simp [runEvaluation, hq, he]
    · unfold evaluate at he
      by_cases hdot : query_text = "."
      · simp [hdot] at he
      · simp [hdot] at he
        subst he
        decide
  · intro r
    rfl

/-- Witness for C5 at a concrete document, malformed query, state and
completion. -/
theorem failures_handled_locally_witness :
    (runEvaluation evaluate "# Title" "x").1 =
        EvaluationResult.Failure
          (QueryError.mk "syntax error: unexpected token" (some 0)) ∧
      (QueryError.mk "syntax error: unexpected token" (some 0)).message ≠ "" ∧
      (appStep
          (AppState.mk (Document.mk "d" "f") (QueryBuffer.mk [] 0)
            (DebouncerState.mk 0 0 .Pending) (ScrollState.mk 0 0) 24 80)
          (.evalComplete 0 .Pending)).2 = LoopSignal.continueLoop := by
  obtain ⟨h1, h2⟩ := failures_handled_locally "# Title" "x"
    (AppState.mk (Document.mk "d" "f") (QueryBuffer.mk [] 0)
      (DebouncerState.mk 0 0 .Pending) (ScrollState.mk 0 0) 24 80) 0
  obtain ⟨ha, hb⟩ :=
    h1 (QueryError.mk "syntax error: unexpected token" (some 0)) (by decide)
      (by simp [evaluate])
  exact ⟨ha, hb, h2 .Pending⟩

/-- C6: when startup fails — the FILE argument is absent or the file is
unreadable — main reports a startup error, the exit code is non-zero, and
the terminal-effect trace is empty: in particular the terminal was never
put into raw mode. -/
theorem startup_failure_reported_no_raw_mode
    (fs : FsPath → Except String String) (cli : Option FsPath)
    (evs : List AppEvent)
    (h : cli = none ∨ ∃ p e, cli = some p ∧ fs p = .error e) :
    (∃ msg, (mainRun fs cli evs).1 = MainOutcome.startupErr msg) ∧
      (∃ c, exitCode (mainRun fs cli evs).1 = some c ∧ c ≠ 0) ∧
      (mainRun fs cli evs).2 = [] ∧
      TermEffect.enterRaw ∉ (mainRun fs cli evs).2 := by
  rcases h with h | ⟨p, e, hp, hf⟩
  · subst h
    exact ⟨⟨noFilePathMsg, rfl⟩, ⟨1, rfl, by decide⟩, rfl, by simp [mainRun]⟩
  · subst hp
    refine ⟨⟨e, ?_⟩, ⟨1, ?_, by decide⟩, ?_, ?_⟩ <;>
      simp [mainRun, hf, exitCode]

/-- Witness for C6 at a concrete unreadable file and at a missing
argument. -/
theorem startup_failure_reported_no_raw_mode_witness :
    (∃ msg,
        (mainRun (fun _ => .error "io error")
          (some (FsPath.mk [PathComponent.normal (OsStr.utf8 "a.md")])) []).1 =
          MainOutcome.startupErr msg) ∧
      (∃ c,
          exitCode
              (mainRun (fun _ => .error "io error")
                (some (FsPath.mk [PathComponent.normal (OsStr.utf8 "a.md")]))
                []).1 = some c ∧ c ≠ 0) ∧
      (∃ msg,
          (mainRun (fun _ => .ok "doc") none []).1 =
            MainOutcome.startupErr msg) ∧
      TermEffect.enterRaw ∉ (mainRun (fun _ => .ok "doc") none []).2 := by
  obtain ⟨ha, hb, -, -⟩ :=
    startup_failure_reported_no_raw_mode (fun _ => .error "io error")
      (some (FsPath.mk [PathComponent.normal (OsStr.utf8 "a.md")])) []
      (Or.inr ⟨FsPath.mk [PathComponent.normal (OsStr.utf8 "a.md")],
        "io error", rfl, rfl⟩)
  obtain ⟨hc, -, -, hd⟩ :=
    startup_failure_reported_no_raw_mode (fun _ => .ok "doc") none []
      (Or.inl rfl)
  exact ⟨ha, hb, hc, hd⟩

/-- C7: whenever the event stream contains the quit key, the Application
Loop terminates with a quit transition, App.run returns success, and the
process exit code is 0 (given the document was read successfully). -/
theorem quit_key_exits_zero (fs : FsPath → Except String String) (p : FsPath)
    (content : String) (evs : List AppEvent) (hread : fs p = .ok content)
    (hquit : AppEvent.quitKey ∈ evs) :
    (∃ s2, runLoop (initState content (mainFilename p)) evs =
        LoopResult.quitOk s2) ∧
      appRun content (mainFilename p) evs = some (Except.ok ()) ∧
      exitCode (mainRun fs (some p) evs).1 = some 0 := by
  obtain ⟨s2, hs2⟩ :=
    runLoop_quit evs (initState content (mainFilename p)) hquit
  refine ⟨⟨s2, hs2⟩, ?_, ?_⟩
  · simp [appRun, hs2]
  · simp [mainRun, hread, exitCode, appRun, hs2]

/-- Witness for C7: a run whose only event is the quit key exits with
code 0. -/
theorem quit_key_exits_zero_witness :
    (∃ s2,
        runLoop
            (initState "# T"
              (mainFilename
                (FsPath.mk [PathComponent.normal (OsStr.utf8 "a.md")])))
            [AppEvent.quitKey] =
          LoopResult.quitOk s2) ∧
      appRun "# T"
          (mainFilename (FsPath.mk [PathComponent.normal (OsStr.utf8 "a.md")]))
          [AppEvent.quitKey] = some (Except.ok ()) ∧
      exitCode
          (mainRun (fun _ => .ok "# T")
            (some (FsPath.mk [PathComponent.normal (OsStr.utf8 "a.md")]))
            [AppEvent.quitKey]).1 = some 0 :=
  quit_key_exits_zero (fun _ => .ok "# T")
    (FsPath.mk [PathComponent.normal (OsStr.utf8 "a.md")]) "# T"
    [AppEvent.quitKey] rfl (List.Mem.head [])

/-- C8: on every exit path of the guarded run — normal quit, propagated
error, or panic — and whatever terminal effects the body performed, the
trace ends with the restore action and the final terminal mode is the
original cooked mode: the shell is never left in raw mode. -/
theorem terminal_restored_on_every_exit (bodyFx : List TermEffect)
    (o : BodyOutcome) :
    finalMode (runGuarded bodyFx o).1 = TermMode.cooked ∧
      ((runGuarded bodyFx o).1).getLast? = some TermEffect.restoreCooked ∧
      (runGuarded bodyFx o).2 = o := by
  refine ⟨?_, ?_, rfl⟩
  · simp [runGuarded, finalMode, List.foldl_append, applyEffect]
  · have hsh :
        TermEffect.enterRaw :: TermEffect.enterAlt ::
            (bodyFx ++ [TermEffect.leaveAlt, TermEffect.restoreCooked]) =
          (TermEffect.enterRaw :: TermEffect.enterAlt :: bodyFx ++
              [TermEffect.leaveAlt]) ++ [TermEffect.restoreCooked] := by
      simp
    simp only [runGuarded, hsh, List.getLast?_concat]

/-- C9: after every cursor movement, the View Model scroll adjustment places
the cursor row and column within the visible window
(keep-cursor-visible invariant), for every window with at least one row and
one column. -/
theorem keep_cursor_visible_after_move (v : ScrollState) (b : QueryBuffer)
    (d : Direction) (u : MoveUnit) (rows cols : Nat) (hr : 0 < rows)
    (hc : 0 < cols) :
    (keepCursorVisible v (b.move_cursor d u) rows cols).row_scroll ≤
        (b.move_cursor d u).cursorRow ∧
      (b.move_cursor d u).cursorRow <
        (keepCursorVisible v (b.move_cursor d u) rows cols).row_scroll +
          rows ∧
      (keepCursorVisible v (b.move_cursor d u) rows cols).col_scroll ≤
        (b.move_cursor d u).cursorCol ∧
      (b.move_cursor d u).cursorCol <
        (keepCursorVisible v (b.move_cursor d u) rows cols).col_scroll +
          cols := by
  obtain ⟨h1, h2⟩ :=
    adjustScroll_visible v.row_scroll (b.move_cursor d u).cursorRow rows hr
  obtain ⟨h3, h4⟩ :=
    adjustScroll_visible v.col_scroll (b.move_cursor d u).cursorCol cols hc
  exact ⟨h1, h2, h3, h4⟩

/-- Witness for C9 at a concrete scroll state, buffer, movement and window
size. -/
theorem keep_cursor_visible_after_move_witness :
    (keepCursorVisible (ScrollState.mk 5 5)
          ((QueryBuffer.mk ['a', 'b', 'c'] 1).move_cursor Direction.right
            MoveUnit.char) 2 3).row_scroll ≤
        ((QueryBuffer.mk ['a', 'b', 'c'] 1).move_cursor Direction.right
            MoveUnit.char).cursorRow ∧
      ((QueryBuffer.mk ['a', 'b', 'c'] 1).move_cursor Direction.right
          MoveUnit.char).cursorRow <
        (keepCursorVisible (ScrollState.mk 5 5)
            ((QueryBuffer.mk ['a', 'b', 'c'] 1).move_cursor Direction.right
              MoveUnit.char) 2 3).row_scroll + 2 ∧
      (keepCursorVisible (ScrollState.mk 5 5)
          ((QueryBuffer.mk ['a', 'b', 'c'] 1).move_cursor Direction.right
            MoveUnit.char) 2 3).col_scroll ≤
        ((QueryBuffer.mk ['a', 'b', 'c'] 1).move_cursor Direction.right
            MoveUnit.char).cursorCol ∧
      ((QueryBuffer.mk ['a', 'b', 'c'] 1).move_cursor Direction.right
          MoveUnit.char).cursorCol <
        (keepCursorVisible (ScrollState.mk 5 5)
            ((QueryBuffer.mk ['a', 'b', 'c'] 1).move_cursor Direction.right
              MoveUnit.char) 2 3).col_scroll + 3 :=
  keep_cursor_visible_after_move (ScrollState.mk 5 5)
    (QueryBuffer.mk ['a', 'b', 'c'] 1) Direction.right MoveUnit.char 2 3
    (by decide) (by decide)

/-- C10: with a readable file, main passes to the App the full file content
and a filename that is the final path component when that component exists
and is valid UTF-8, and the fallback "file.md" when the final component is
absent or is not valid UTF-8. -/
theorem filename_is_final_component (fs : FsPath → Except String String)
    (p : FsPath) (content : String) (evs : List AppEvent)
    (hread : fs p = .ok content) :
    (∃ res fx, mainRun fs (some p) evs =
        (MainOutcome.appStarted content (mainFilename p) res, fx)) ∧
      (∀ s, p.file_name = some (OsStr.utf8 s) → mainFilename p = s) ∧
      (p.file_name = none → mainFilename p = "file.md") ∧
      (∀ bs, p.file_name = some (OsStr.nonUtf8 bs) →
        mainFilename p = "file.md") := by
  refine ⟨⟨appRun content (mainFilename p) evs,
      (runGuarded (evs.map fun _ => TermEffect.paint)
        (match appRun content (mainFilename p) evs with
          | some r => .normal r
          | none => .normal (.ok ()))).1,
      by simp [mainRun, hread]⟩, ?_, ?_, ?_⟩
  · intro s hs
    simp [mainFilename, hs, OsStr.to_str]
  · intro hs
    simp [mainFilename, hs]
  · intro bs hs
    simp [mainFilename, hs, OsStr.to_str]

/-- Witness for C10 at a UTF-8 final component, a non-UTF-8 final component
and a path without a final component. -/
theorem filename_is_final_component_witness :
    mainFilename (FsPath.mk [PathComponent.normal (OsStr.utf8 "README.md")]) =
        "README.md" ∧
      mainFilename (FsPath.mk [PathComponent.normal (OsStr.nonUtf8 [255])]) =
        "file.md" ∧
      mainFilename (FsPath.mk [PathComponent.rootDir]) = "file.md" ∧
      (∃ res fx,
          mainRun (fun _ => .ok "doc")
              (some (FsPath.mk [PathComponent.normal (OsStr.utf8 "README.md")]))
              [] =
            (MainOutcome.appStarted "doc"
              (mainFilename
                (FsPath.mk [PathComponent.normal (OsStr.utf8 "README.md")]))
              res, fx)) := by
  obtain ⟨hrun, hutf, -, -⟩ :=
    filename_is_final_component (fun _ => .ok "doc")
      (FsPath.mk [PathComponent.normal (OsStr.utf8 "README.md")]) "doc" [] rfl
  obtain ⟨-, -, -, hbad⟩ :=
    filename_is_final_component (fun _ => .ok "doc")
      (FsPath.mk [PathComponent.normal (OsStr.nonUtf8 [255])]) "doc" [] rfl
  obtain ⟨-, -, hnone, -⟩ :=
    filename_is_final_component (fun _ => .ok "doc")
      (FsPath.mk [PathComponent.rootDir]) "doc" [] rfl
  exact ⟨hutf "README.md" (by decide), hbad [255] (by decide),
    hnone (by decide), hrun⟩

end MqTui
